import Mathlib

/-!
Shallow embedding of the DhakaCart backup subsystem
(src/terraform/lambda/backup_manager/index.py and
src/terraform/lambda/backup_verifier/index.py).

External collaborators (the RDS control plane, the S3 object store, the
secrets store, the SNS topic and the live database connection) are modelled
by explicit environment values: each external call is represented by the
value it returned, or by the exception it raised, as an Except value carried
in the environment.  Machine time (datetime.utcnow) is an integer number of
seconds supplied as a parameter; timedelta(days = d) is d * 86400 seconds and
timedelta(hours = h) is h * 3600 seconds.  Python dictionaries returned by the
functions are modelled as structures; presentation-only evidence fields
(the 5-entry snapshot listing, the 3-entry export listing and the
megabyte-rounded size, which uses floating point) are elided, and the byte
total is kept instead of the rounded megabyte figure.
-/

deriving instance DecidableEq for Except

/-- One resource tag, as returned by list_tags_for_resource. -/
structure Tag where
  key : String
  value : String
deriving DecidableEq

/-- One snapshot record as surfaced by describe_db_snapshots.  The model
carries each snapshot's tag set in the record; the per-snapshot
list_tags_for_resource lookup in the source reads this set. -/
structure SnapshotRecord where
  dbSnapshotIdentifier : String
  dbInstanceIdentifier : String
  snapshotCreateTime : Int
  status : String
  allocatedStorage : Nat
  snapshotType : String
  tagList : List Tag
deriving DecidableEq

/-- One object record as surfaced by list_objects_v2 (key, LastModified, Size). -/
structure S3Object where
  key : String
  lastModified : Int
  size : Nat
deriving DecidableEq

/-- The structured credential payload held in the secret. -/
structure Credentials where
  host : String
  port : Int
  dbname : String
  username : String
  password : String
deriving DecidableEq

/-- describe_db_snapshots filtered by DBInstanceIdentifier and SnapshotType:
the control plane returns exactly the snapshots of the given instance with
the given type. -/
def describe_db_snapshots (catalog : List SnapshotRecord)
    (db_instance_id stype : String) : List SnapshotRecord :=
  catalog.filter fun s =>
    s.dbInstanceIdentifier == db_instance_id && s.snapshotType == stype

/-- The ownership test of backup_manager/index.py lines 136-139: any tag with
Key CreatedBy and Value automated-backup-system. -/
def is_automated (tagList : List Tag) : Bool :=
  tagList.any fun tag =>
    tag.key == "CreatedBy" && tag.value == "automated-backup-system"

/-- os.environ lookup: the value, or a KeyError when the variable is unset. -/
def getEnvVar (vars : List (String × String)) (key : String) :
    Except String String :=
  match vars.find? (fun p => p.1 == key) with
  | some p => Except.ok p.2
  | none => Except.error ("KeyError: " ++ key)

/-- int(...) conversion: the integer, or a ValueError. -/
def parse_int (s : String) : Except String Int :=
  match s.toInt? with
  | some n => Except.ok n
  | none => Except.error ("ValueError: invalid literal for int: " ++ s)

/-- Whether an external-call outcome was a normal return. -/
def okB {α : Type} : Except String α → Bool
  | Except.ok _ => true
  | Except.error _ => false

/-- What a handler hands back to the invoking platform: a returned response
envelope, or an exception that escaped the handler. -/
inductive Outcome (β : Type) where
  | returns (statusCode : Nat) (body : β)
  | raises (exc : String)
deriving DecidableEq

/-- In both handlers the local variable sns_topic_arn is assigned by the third
os.environ lookup of the try block (after DB_INSTANCE_ID and S3_BUCKET); it is
bound when the except block runs iff those first three lookups succeeded.
Referencing it unbound in the except block raises to the platform. -/
def sns_topic_arn_bound (vars : List (String × String)) : Bool :=
  okB (getEnvVar vars "DB_INSTANCE_ID") &&
  okB (getEnvVar vars "S3_BUCKET") &&
  okB (getEnvVar vars "SNS_TOPIC_ARN")

/-- Result dictionary of create_snapshot. -/
structure CreateSnapshotResult where
  snapshot_id : String
  status : String
  size : Nat
deriving DecidableEq

/-- Result dictionary of cleanup_old_snapshots. -/
structure CleanupResult where
  deleted_count : Nat
  deleted_snapshots : List String
deriving DecidableEq

/-- Result dictionary of export_snapshot_to_s3. -/
structure ExportResult where
  export_task_id : String
  status : String
  s3_location : String
deriving DecidableEq

/-- The result value of whichever backup-manager action ran. -/
inductive ActionResult where
  | created (r : CreateSnapshotResult)
  | cleaned (r : CleanupResult)
  | exported (r : ExportResult)
deriving DecidableEq

/-- Body of the backup-manager response envelope. -/
inductive ManagerBody where
  | success (message : String) (result : ActionResult)
  | failure (error : String)
deriving DecidableEq

/-- The incoming event of the backup manager; event.get returns none for an
absent field. -/
structure Event where
  action : Option String := none
  type : Option String := none
  snapshot_id : Option String := none
deriving DecidableEq

/-- WaiterConfig of the db_snapshot_completed waiter. -/
structure WaiterConfig where
  delay : Nat
  maxAttempts : Nat
deriving DecidableEq

namespace BackupManager

/-- Delay 30, MaxAttempts 120 (backup_manager/index.py lines 98-101). -/
def snapshotWaiterConfig : WaiterConfig := { delay := 30, maxAttempts := 120 }

/-- Control-plane environment of create_snapshot: the create_db_snapshot
response (its DBSnapshot Status and AllocatedStorage fields), or the
exception it raised; and the snapshot status observed at each poll of the
waiter. -/
structure CreateEnv where
  createResp : Except String (String × Nat)
  poll : Nat → String
deriving Inhabited

/-- The db_snapshot_completed waiter: polls until the snapshot is available,
raising a WaiterError once maxAttempts polls are exhausted. -/
def db_snapshot_completed_wait (poll : Nat → String) (cfg : WaiterConfig) :
    Except String Unit :=
  if (List.range cfg.maxAttempts).any (fun k => poll k == "available") then
    Except.ok ()
  else
    Except.error "WaiterError: db_snapshot_completed polling exhausted max attempts"

/-- create_snapshot (backup_manager/index.py lines 68-109): build the
time-unique identifier, request creation (tagged BackupType / CreatedBy =
automated-backup-system / Timestamp), block on the waiter, then return the
identifier together with the Status and AllocatedStorage fields of the
creation response. -/
def create_snapshot (env : CreateEnv)
    (db_instance_id backup_type kms_key_id timestamp : String) :
    Except String CreateSnapshotResult :=
  let snapshot_id := db_instance_id ++ "-" ++ backup_type ++ "-" ++ timestamp
  match env.createResp with
  | Except.error e => Except.error e
  | Except.ok resp =>
    match db_snapshot_completed_wait env.poll snapshotWaiterConfig with
    | Except.error e => Except.error e
    | Except.ok _ =>
      Except.ok { snapshot_id := snapshot_id, status := resp.1, size := resp.2 }

/-- cutoff_date = utcnow minus retention_days days (line 113). -/
def retention_cutoff (retention_days now : Int) : Int :=
  now - retention_days * 86400

/-- The snapshots the cleanup loop marks for deletion: the manual snapshots
of the instance whose creation time is strictly before the cutoff and whose
tag set carries the ownership marker (lines 125-141). -/
def retention_marked (catalog : List SnapshotRecord) (db_instance_id : String)
    (retention_days now : Int) : List SnapshotRecord :=
  (describe_db_snapshots catalog db_instance_id "manual").filter fun s =>
    decide (s.snapshotCreateTime < retention_cutoff retention_days now) &&
    is_automated s.tagList

/-- cleanup_old_snapshots (lines 111-150).  The listing argument is the
outcome of the describe_db_snapshots call over the external catalog; each
marked snapshot is deleted by identifier, and the function returns the count
and list of deleted identifiers together with the catalog as it stands after
the deletions. -/
def cleanup_old_snapshots (listing : Except String (List SnapshotRecord))
    (db_instance_id : String) (retention_days now : Int) :
    Except String (CleanupResult × List SnapshotRecord) :=
  match listing with
  | Except.error e => Except.error e
  | Except.ok catalog =>
    let deleted_snapshots :=
      (retention_marked catalog db_instance_id retention_days now).map
        SnapshotRecord.dbSnapshotIdentifier
    Except.ok
      ({ deleted_count := deleted_snapshots.length,
         deleted_snapshots := deleted_snapshots },
       catalog.filter fun s =>
         !(deleted_snapshots.contains s.dbSnapshotIdentifier))

/-- export_snapshot_to_s3 (lines 152-182): resolve the snapshot ARN (the
describe call raises when the snapshot does not exist), then start the export
task and return immediately.  Python renders a missing snapshot_id as the
string None inside the task identifier. -/
def export_snapshot_to_s3 (arnLookup : Except String String)
    (taskStatus : String) (snapshot_id : Option String)
    (s3_bucket date_path timestamp : String) : Except String ExportResult :=
  let sidText := match snapshot_id with | some s => s | none => "None"
  let export_task_id := sidText ++ "-export-" ++ timestamp
  match arnLookup with
  | Except.error e => Except.error e
  | Except.ok _snapshot_arn =>
    Except.ok
      { export_task_id := export_task_id,
        status := taskStatus,
        s3_location := "s3://" ++ s3_bucket ++ "/exports/" ++ date_path ++ "/" }

/-- sns_client.publish: succeeds or raises, depending on the transport. -/
def sns_publish (transportOk : Bool) (subject status : String) :
    Except String Unit :=
  if transportOk then Except.ok ()
  else Except.error ("publish failed: " ++ subject ++ " " ++ status)

/-- send_notification (lines 184-199): the publish outcome is caught; both
branches only log, so the function always returns normally. -/
def send_notification (transportOk : Bool) (subject status : String) : Unit :=
  match sns_publish transportOk
      ("[" ++ status ++ "] DhakaCart Backup Notification")
      (subject ++ " " ++ status) with
  | Except.ok _ => ()
  | Except.error _ => ()

/-- The external world of one backup-manager invocation. -/
structure Deps where
  now : Int
  timestamp : String
  date_path : String
  catalog : Except String (List SnapshotRecord)
  createEnv : CreateEnv
  exportArn : Except String String
  exportStatus : String
  notifyOk : Bool

/-- The try block of the manager handler (lines 22-41): defaulted event
fields, the five environment lookups in source order, then the dispatch. -/
def run_action (vars : List (String × String)) (event : Event) (deps : Deps) :
    Except String ActionResult := do
  let action := event.action.getD "create_snapshot"
  let backup_type := event.type.getD "manual"
  let db_instance_id ← getEnvVar vars "DB_INSTANCE_ID"
  let s3_bucket ← getEnvVar vars "S3_BUCKET"
  let _sns_topic_arn ← getEnvVar vars "SNS_TOPIC_ARN"
  let kms_key_id ← getEnvVar vars "KMS_KEY_ID"
  let retention_days ← parse_int (← getEnvVar vars "RETENTION_DAYS")
  if action == "create_snapshot" then
    match create_snapshot deps.createEnv db_instance_id backup_type kms_key_id
        deps.timestamp with
    | Except.error e => Except.error e
    | Except.ok r => Except.ok (ActionResult.created r)
  else if action == "cleanup_snapshots" then
    match cleanup_old_snapshots deps.catalog db_instance_id retention_days
        deps.now with
    | Except.error e => Except.error e
    | Except.ok p => Except.ok (ActionResult.cleaned p.1)
  else if action == "export_snapshot" then
    match export_snapshot_to_s3 deps.exportArn deps.exportStatus
        event.snapshot_id s3_bucket deps.date_path deps.timestamp with
    | Except.error e => Except.error e
    | Except.ok r => Except.ok (ActionResult.exported r)
  else
    Except.error ("ValueError: Unknown action: " ++ action)

/-- The manager handler (lines 16-66).  On success it notifies (outcome
swallowed) and returns the 200 envelope; on any exception the except block
first references sns_topic_arn - raising to the platform when that local is
still unbound - and otherwise notifies and returns the 500 envelope. -/
def handler (vars : List (String × String)) (event : Event) (deps : Deps) :
    Outcome ManagerBody :=
  let action := event.action.getD "create_snapshot"
  match run_action vars event deps with
  | Except.ok result =>
    let _ := send_notification deps.notifyOk
      ("Backup operation successful: " ++ action) "SUCCESS"
    Outcome.returns 200
      (ManagerBody.success
        ("Backup operation " ++ action ++ " completed successfully") result)
  | Except.error e =>
    let error_message := "Backup operation failed: " ++ e
    if sns_topic_arn_bound vars then
      let _ := send_notification deps.notifyOk "Backup operation failed" "ERROR"
      Outcome.returns 500 (ManagerBody.failure error_message)
    else
      Outcome.raises "NameError: name sns_topic_arn is not defined"

end BackupManager

/-- Snapshot-freshness sub-report (backup_verifier/index.py lines 129-142). -/
structure SnapshotVerification where
  status : String
  total_recent_snapshots : Option Nat := none
  available_snapshots : Option Nat := none
  error : Option String := none
deriving DecidableEq

/-- The product-table probe outcome: a count, or the tolerated absence of the
table ("N/A (table may not exist)"). -/
inductive ProductProbe where
  | found (n : Int)
  | notApplicable
deriving DecidableEq

/-- Connectivity sub-report (lines 196-202 and 209-212). -/
structure ConnectivityResult where
  status : String
  db_version : Option String := none
  table_count : Option Int := none
  product_count : Option ProductProbe := none
  write_test : Option String := none
  error : Option String := none
deriving DecidableEq

/-- Export-freshness sub-report (lines 226-251 and 258-261). -/
structure S3Verification where
  status : String
  message : Option String := none
  export_count : Option Nat := none
  recent_export_count : Option Nat := none
  total_size_bytes : Option Nat := none
  error : Option String := none
deriving DecidableEq

/-- The compiled verification report (lines 43-53). -/
structure VerificationResults where
  timestamp : String
  snapshot_verification : SnapshotVerification
  connectivity_test : ConnectivityResult
  s3_verification : S3Verification
  overall_status : String
deriving DecidableEq

/-- Body of the backup-verifier response envelope. -/
inductive VerifierBody where
  | success (message : String) (results : VerificationResults)
  | failure (error : String)
deriving DecidableEq

namespace BackupVerifier

/-- get_db_credentials (lines 88-95): the secret-store outcome is logged and
re-raised on failure, returned parsed on success. -/
def get_db_credentials (secret : Except String Credentials) :
    Except String Credentials :=
  match secret with
  | Except.ok c => Except.ok c
  | Except.error e =>
    Except.error ("Failed to retrieve database credentials: " ++ e)

/-- The rolling 48-hour freshness filter of verify_recent_snapshots
(lines 119-122): strictly after cutoff_time = now minus 48 hours. -/
def recent_snapshots (snaps : List SnapshotRecord) (now : Int) :
    List SnapshotRecord :=
  snaps.filter fun s => decide (s.snapshotCreateTime > now - 48 * 3600)

/-- verify_recent_snapshots (lines 97-152): fetch automated and manual
snapshots (MaxRecords 20 each), keep those inside the 48-hour window, keep
the available ones, PASS iff at least one remains; any exception from the
describe calls is caught and downgraded to a FAIL sub-report. -/
def verify_recent_snapshots (listing : Except String (List SnapshotRecord))
    (db_instance_id : String) (now : Int) : SnapshotVerification :=
  match listing with
  | Except.error e => { status := "FAIL", error := some e }
  | Except.ok catalog =>
    let automated :=
      (describe_db_snapshots catalog db_instance_id "automated").take 20
    let manual :=
      (describe_db_snapshots catalog db_instance_id "manual").take 20
    let all_snapshots := automated ++ manual
    let recent := recent_snapshots all_snapshots now
    let available := recent.filter fun s => s.status == "available"
    { status := if available.length > 0 then "PASS" else "FAIL",
      total_recent_snapshots := some recent.length,
      available_snapshots := some available.length }

/-- The live-database environment of test_database_connectivity: the outcome
of the connection attempt, of each probe query in source order (the scratch
CREATE/INSERT/SELECT sequence is summarised by the count it returns or the
exception it raises), and of the DROP/commit/close teardown.  The inner
product-table probe catches only database errors, which the model represents
as the error branch of product_count. -/
structure DbEnv where
  connect : Except String Unit
  version : Except String String
  table_count : Except String Int
  product_count : Except String Int
  test_count : Except String Int
  teardown : Except String Unit
deriving DecidableEq

/-- test_database_connectivity (lines 154-212): any exception at any step is
caught by the outer handler and yields a FAIL sub-report with the exception
text; when every step succeeds the sub-report status is PASS and the
write_test evidence field is PASS iff the scratch-table round-trip count is
exactly 1. -/
def test_database_connectivity (db_credentials : Credentials) (env : DbEnv) :
    ConnectivityResult :=
  let _ := db_credentials
  match env.connect with
  | Except.error e => { status := "FAIL", error := some e }
  | Except.ok _ =>
  match env.version with
  | Except.error e => { status := "FAIL", error := some e }
  | Except.ok db_version =>
  match env.table_count with
  | Except.error e => { status := "FAIL", error := some e }
  | Except.ok table_count =>
  let product_count : ProductProbe :=
    match env.product_count with
    | Except.ok n => ProductProbe.found n
    | Except.error _ => ProductProbe.notApplicable
  match env.test_count with
  | Except.error e => { status := "FAIL", error := some e }
  | Except.ok test_count =>
  match env.teardown with
  | Except.error e => { status := "FAIL", error := some e }
  | Except.ok _ =>
    { status := "PASS",
      db_version := some db_version,
      table_count := some table_count,
      product_count := some product_count,
      write_test := some (if test_count == 1 then "PASS" else "FAIL") }

/-- Python startswith: the string begins with the given prefix,
character-wise. -/
def starts_with (s pfx : String) : Bool := pfx.data.isPrefixOf s.data

/-- list_objects_v2 over the bucket with a key prefix: the store returns
exactly the objects whose key starts with the prefix, and the Contents field
is absent exactly when that set is empty. -/
def list_objects_v2 (bucket : List S3Object) (pfx : String) : List S3Object :=
  bucket.filter fun o => starts_with o.key pfx

/-- The rolling 7-day export-freshness filter (lines 232-235): strictly after
cutoff_time = now minus 7 days. -/
def recent_exports (contents : List S3Object) (now : Int) : List S3Object :=
  contents.filter fun o => decide (o.lastModified > now - 7 * 86400)

/-- verify_s3_backups (lines 214-261): list the exports prefix (a listing
exception is caught and downgraded to FAIL); no objects at all under the
prefix is WARN; otherwise PASS iff at least one object lies inside the 7-day
window, WARN when none does. -/
def verify_s3_backups (bucketListing : Except String (List S3Object))
    (now : Int) : S3Verification :=
  match bucketListing with
  | Except.error e => { status := "FAIL", error := some e }
  | Except.ok bucket =>
    let contents := list_objects_v2 bucket "exports/"
    if contents.isEmpty then
      { status := "WARN", message := some "No S3 exports found",
        export_count := some 0 }
    else
      let recent := recent_exports contents now
      { status := if recent.length > 0 then "PASS" else "WARN",
        recent_export_count := some recent.length,
        total_size_bytes := some (recent.foldl (fun acc o => acc + o.size) 0) }

/-- Lines 43-53: the report dictionary, whose overall_status is PASS exactly
when all three sub-statuses equal PASS, and FAIL otherwise. -/
def compile_verification_results (timestamp : String)
    (snapshot_verification : SnapshotVerification)
    (connectivity_test : ConnectivityResult)
    (s3_verification : S3Verification) : VerificationResults :=
  { timestamp := timestamp,
    snapshot_verification := snapshot_verification,
    connectivity_test := connectivity_test,
    s3_verification := s3_verification,
    overall_status :=
      if snapshot_verification.status == "PASS" &&
         connectivity_test.status == "PASS" &&
         s3_verification.status == "PASS" then "PASS" else "FAIL" }

/-- s3_client.put_object for the results log: succeeds or raises. -/
def s3_put_object (storeOk : Bool) : Except String Unit :=
  if storeOk then Except.ok () else Except.error "put_object failed"

/-- store_verification_results (lines 263-279): the put outcome is caught;
both branches only log, so the function always returns normally.  The dated
key layout is a destination detail elided here. -/
def store_verification_results (storeOk : Bool)
    (results : VerificationResults) : Unit :=
  let _ := results
  match s3_put_object storeOk with
  | Except.ok _ => ()
  | Except.error _ => ()

/-- sns_client.publish for the verifier topic: succeeds or raises. -/
def sns_publish (transportOk : Bool) (subject status : String) :
    Except String Unit :=
  if transportOk then Except.ok ()
  else Except.error ("publish failed: " ++ subject ++ " " ++ status)

/-- send_notification (lines 281-296): the publish outcome is caught; both
branches only log, so the function always returns normally. -/
def send_notification (transportOk : Bool) (subject status : String) : Unit :=
  match sns_publish transportOk
      ("[" ++ status ++ "] DhakaCart Backup Verification")
      (subject ++ " " ++ status) with
  | Except.ok _ => ()
  | Except.error _ => ()

/-- The external world of one backup-verifier invocation. -/
structure Deps where
  now : Int
  timestamp : String
  secret : Except String Credentials
  snapshotListing : Except String (List SnapshotRecord)
  dbEnv : DbEnv
  s3Bucket : Except String (List S3Object)
  storeOk : Bool
  notifyOk : Bool

/-- The try block of the verifier handler (lines 22-53): the four environment
lookups in source order, credential retrieval, the three checks, and the
compiled report. -/
def run_verification (vars : List (String × String)) (deps : Deps) :
    Except String VerificationResults := do
  let db_instance_id ← getEnvVar vars "DB_INSTANCE_ID"
  let _s3_bucket ← getEnvVar vars "S3_BUCKET"
  let _sns_topic_arn ← getEnvVar vars "SNS_TOPIC_ARN"
  let secret_arn ← getEnvVar vars "SECRET_ARN"
  let _ := secret_arn
  let db_credentials ← get_db_credentials deps.secret
  let snapshot_verification :=
    verify_recent_snapshots deps.snapshotListing db_instance_id deps.now
  let connectivity_test := test_database_connectivity db_credentials deps.dbEnv
  let s3_verification := verify_s3_backups deps.s3Bucket deps.now
  Except.ok (compile_verification_results deps.timestamp
    snapshot_verification connectivity_test s3_verification)

/-- The verifier handler (lines 18-86).  On success it stores the report and
notifies (both outcomes swallowed) and returns the 200 envelope; on any
exception the except block first references sns_topic_arn - raising to the
platform when that local is still unbound - and otherwise notifies and
returns the 500 envelope. -/
def handler (vars : List (String × String)) (deps : Deps) :
    Outcome VerifierBody :=
  match run_verification vars deps with
  | Except.ok verification_results =>
    let _ := store_verification_results deps.storeOk verification_results
    let _ := send_notification deps.notifyOk
      ("Backup Verification " ++ verification_results.overall_status)
      verification_results.overall_status
    Outcome.returns 200
      (VerifierBody.success "Backup verification completed"
        verification_results)
  | Except.error e =>
    let error_message := "Backup verification failed: " ++ e
    if sns_topic_arn_bound vars then
      let _ := send_notification deps.notifyOk "Backup Verification Failed"
        "ERROR"
      Outcome.returns 500 (VerifierBody.failure error_message)
    else
      Outcome.raises "NameError: name sns_topic_arn is not defined"

end BackupVerifier

/-! Concrete sample environments used by the concrete runs below. -/

/-- A sample credential payload. -/
def demoCredentials : Credentials :=
  { host := "db.internal", port := 5432, dbname := "dhakacart",
    username := "app", password := "s3cr3t" }

/-- A fully concrete backup-manager world. -/
def demoManagerDeps : BackupManager.Deps :=
  { now := 1700000000,
    timestamp := "2023-11-14-22-13-20",
    date_path := "2023/11/14",
    catalog := Except.ok [],
    createEnv := { createResp := Except.ok ("creating", 20),
                   poll := fun _ => "available" },
    exportArn := Except.ok "arn-of-snapshot",
    exportStatus := "STARTING",
    notifyOk := true }

/-- A live-database run in which the connection and every query succeed but
the scratch-table round-trip count comes back 0 instead of 1. -/
def connOkZeroCount : BackupVerifier.DbEnv :=
  { connect := Except.ok (), version := Except.ok "PostgreSQL 15.4",
    table_count := Except.ok 12, product_count := Except.ok 250,
    test_count := Except.ok 0, teardown := Except.ok () }

/-- A fully concrete backup-verifier world. -/
def demoVerifierDeps : BackupVerifier.Deps :=
  { now := 1700000000,
    timestamp := "2023-11-14T22:13:20",
    secret := Except.ok demoCredentials,
    snapshotListing := Except.ok [],
    dbEnv := connOkZeroCount,
    s3Bucket := Except.ok [],
    storeOk := true,
    notifyOk := true }

/-- A create-snapshot world whose creation response reports the initial
creating status and whose waiter sees the snapshot become available. -/
def creatingResponseEnv : BackupManager.CreateEnv :=
  { createResp := Except.ok ("creating", 20), poll := fun _ => "available" }

/-- A create-snapshot world whose waiter never observes an available status. -/
def timeoutPollEnv : BackupManager.CreateEnv :=
  { createResp := Except.ok ("creating", 20), poll := fun _ => "creating" }

/-- An aged platform-managed (automated) snapshot without tags. -/
def agedAutomatedSnap : SnapshotRecord :=
  { dbSnapshotIdentifier := "rds:db-2020", dbInstanceIdentifier := "db",
    snapshotCreateTime := 0, status := "available", allocatedStorage := 20,
    snapshotType := "automated", tagList := [] }

/-- An aged manual snapshot created by someone else (no ownership marker). -/
def agedUnmarkedManualSnap : SnapshotRecord :=
  { dbSnapshotIdentifier := "db-final", dbInstanceIdentifier := "db",
    snapshotCreateTime := 0, status := "available", allocatedStorage := 20,
    snapshotType := "manual", tagList := [{ key := "CreatedBy", value := "dba-team" }] }

/-- An aged manual snapshot carrying the ownership marker. -/
def agedOwnedSnap : SnapshotRecord :=
  { dbSnapshotIdentifier := "db-manual-old", dbInstanceIdentifier := "db",
    snapshotCreateTime := 100, status := "available", allocatedStorage := 20,
    snapshotType := "manual",
    tagList := [{ key := "CreatedBy", value := "automated-backup-system" }] }

/-- A fresh manual snapshot carrying the ownership marker. -/
def freshOwnedSnap : SnapshotRecord :=
  { dbSnapshotIdentifier := "db-manual-fresh", dbInstanceIdentifier := "db",
    snapshotCreateTime := 999000, status := "available", allocatedStorage := 20,
    snapshotType := "manual",
    tagList := [{ key := "CreatedBy", value := "automated-backup-system" }] }

/-- An owned manual snapshot created exactly at the 7-day retention cutoff of
reference time 1000000 (1000000 - 7 * 86400 = 395200). -/
def boundaryRetentionSnap : SnapshotRecord :=
  { dbSnapshotIdentifier := "db-manual-boundary", dbInstanceIdentifier := "db",
    snapshotCreateTime := 395200, status := "available", allocatedStorage := 20,
    snapshotType := "manual",
    tagList := [{ key := "CreatedBy", value := "automated-backup-system" }] }

/-- An available snapshot created exactly at the 48-hour freshness cutoff of
reference time 1000000 (1000000 - 48 * 3600 = 827200). -/
def boundaryFreshSnap : SnapshotRecord :=
  { dbSnapshotIdentifier := "db-manual-edge", dbInstanceIdentifier := "db",
    snapshotCreateTime := 827200, status := "available", allocatedStorage := 20,
    snapshotType := "manual",
    tagList := [{ key := "CreatedBy", value := "automated-backup-system" }] }

/-- An export object last modified exactly at the 7-day freshness cutoff of
reference time 1000000. -/
def boundaryExportObj : S3Object :=
  { key := "exports/2023/11/07/part-0", lastModified := 395200, size := 1048576 }

/-- An export object last modified well before the 7-day window. -/
def staleExportObj : S3Object :=
  { key := "exports/2023/01/01/part-0", lastModified := 100, size := 2048 }

/-- An export object last modified inside the 7-day window. -/
def freshExportObj : S3Object :=
  { key := "exports/2023/11/13/part-0", lastModified := 999000, size := 4096 }

/-- Claim C10: when the incoming event carries no action field, the manager
handler behaves exactly as if the event had asked for the create_snapshot
action with type manual, instead of hitting the unknown-action error. -/
theorem c10_missing_action_defaults_to_create_snapshot
    (vars : List (String × String)) (sid : Option String)
    (deps : BackupManager.Deps) :
    BackupManager.handler vars
        { action := none, type := none, snapshot_id := sid } deps
      = BackupManager.handler vars
        { action := some "create_snapshot", type := some "manual",
          snapshot_id := sid } deps := rfl

/-- Claim C4, failing input: with the required configuration missing (for
example an empty environment, so the DB_INSTANCE_ID lookup raises KeyError
before sns_topic_arn is assigned), both handlers raise an unhandled NameError
from inside their except block instead of returning the 500 envelope the
claim promises. -/
theorem c4_missing_config_raises_instead_of_envelope :
    BackupManager.handler [] { action := some "cleanup_snapshots" }
        demoManagerDeps
      = Outcome.raises "NameError: name sns_topic_arn is not defined"
    ∧ BackupVerifier.handler [] demoVerifierDeps
      = Outcome.raises "NameError: name sns_topic_arn is not defined" :=
  ⟨rfl, rfl⟩

/-- Claim C3, counterexample: a run in which the connection and every query
succeed but the scratch-table round-trip count is 0 still gets connectivity
sub-verdict PASS; only the write_test evidence field records FAIL, so the
claim that the sub-verdict itself turns FAIL is false. -/
theorem c3_counterexample_zero_count_still_pass :
    (BackupVerifier.test_database_connectivity demoCredentials
        connOkZeroCount).status = "PASS"
    ∧ (BackupVerifier.test_database_connectivity demoCredentials
        connOkZeroCount).write_test = some "FAIL"
    ∧ ("PASS" : String) ≠ "FAIL" :=
  ⟨rfl, rfl, by decide⟩

/-- Claim C3 as amended: when the connection and all queries succeed, the
connectivity sub-verdict is PASS regardless of the scratch-table round-trip
count; the count only determines the write_test evidence field, which is
PASS exactly when the count equals 1. -/
theorem c3_amended_pass_with_write_test_field (creds : Credentials)
    (v : String) (tc : Int) (pc : Except String Int) (n : Int) :
    (BackupVerifier.test_database_connectivity creds
        { connect := Except.ok (), version := Except.ok v,
          table_count := Except.ok tc, product_count := pc,
          test_count := Except.ok n, teardown := Except.ok () }).status
      = "PASS"
    ∧ ((BackupVerifier.test_database_connectivity creds
        { connect := Except.ok (), version := Except.ok v,
          table_count := Except.ok tc, product_count := pc,
          test_count := Except.ok n, teardown := Except.ok () }).write_test
      = some "PASS" ↔ n = 1) := by
  constructor
  · rfl
  · simp only [BackupVerifier.test_database_connectivity]
    split <;> rename_i h
    · simp only [beq_iff_eq] at h
      simp [h]
    · simp only [beq_iff_eq] at h
      simp [h]

/-- Claim C9: a failed notification publish or a failed persist of the
verification report never changes either handler's outcome, and such
failures are real possibilities of the modelled transports. -/
theorem c9_sink_failures_never_change_outcome :
    (∀ (vars : List (String × String)) (event : Event)
        (deps : BackupManager.Deps) (t t' : Bool),
      BackupManager.handler vars event { deps with notifyOk := t }
        = BackupManager.handler vars event { deps with notifyOk := t' })
    ∧ (∀ (vars : List (String × String)) (deps : BackupVerifier.Deps)
        (t t' u u' : Bool),
      BackupVerifier.handler vars { deps with notifyOk := t, storeOk := u }
        = BackupVerifier.handler vars { deps with notifyOk := t', storeOk := u' })
    ∧ (∀ s st : String,
      okB (BackupManager.sns_publish false s st) = false
      ∧ okB (BackupVerifier.sns_publish false s st) = false
      ∧ okB (BackupVerifier.s3_put_object false) = false) := by
  refine ⟨?_, ?_, ?_⟩
  · intro vars event deps t t'
    cases deps
    rfl
  · intro vars deps t t' u u'
    cases deps
    rfl
  · intro s st
    exact ⟨rfl, rfl, rfl⟩

/-- Claim C2: the compiled report's overall verdict is PASS exactly when all
three sub-checks report PASS, and it is FAIL in every other case (in
particular when any sub-check reports WARN or FAIL). -/
theorem c2_overall_pass_iff_all_subchecks_pass (timestamp : String)
    (sv : SnapshotVerification) (ct : ConnectivityResult)
    (s3v : S3Verification) :
    ((BackupVerifier.compile_verification_results timestamp sv ct
        s3v).overall_status = "PASS"
      ↔ (sv.status = "PASS" ∧ ct.status = "PASS" ∧ s3v.status = "PASS"))
    ∧ ((BackupVerifier.compile_verification_results timestamp sv ct
        s3v).overall_status = "PASS"
      ∨ (BackupVerifier.compile_verification_results timestamp sv ct
        s3v).overall_status = "FAIL") := by
  simp only [BackupVerifier.compile_verification_results]
  constructor
  · split <;> rename_i h
    · simp only [Bool.and_eq_true, beq_iff_eq] at h
      simp [h]
    · simp only [Bool.and_eq_true, beq_iff_eq] at h
      constructor
      · intro hfp
        exact absurd hfp (by decide)
      · intro hall
        exact absurd ⟨⟨hall.1, hall.2.1⟩, hall.2.2⟩ h
  · split
    · exact Or.inl rfl
    · exact Or.inr rfl

/-- Claim C1: a snapshot identifier is deleted by a cleanup run over a
catalog exactly when the catalog holds a snapshot with that identifier that
belongs to the instance, is of manual kind, was created strictly before the
retention cutoff, and carries the ownership marker; in particular a snapshot
of automated kind, or one without the marker, is never selected for
deletion. -/
theorem c1_deleted_iff_old_marked_manual (catalog : List SnapshotRecord)
    (db_instance_id : String) (retention_days now : Int) (sid : String)
    (s : SnapshotRecord) :
    ((BackupManager.cleanup_old_snapshots (Except.ok catalog) db_instance_id
        retention_days now).map (fun p => p.1.deleted_snapshots)
      = Except.ok ((BackupManager.retention_marked catalog db_instance_id
          retention_days now).map SnapshotRecord.dbSnapshotIdentifier))
    ∧ (sid ∈ (BackupManager.retention_marked catalog db_instance_id
          retention_days now).map SnapshotRecord.dbSnapshotIdentifier
        ↔ ∃ t, t ∈ catalog ∧ t.dbSnapshotIdentifier = sid
            ∧ t.dbInstanceIdentifier = db_instance_id
            ∧ t.snapshotType = "manual"
            ∧ t.snapshotCreateTime < now - retention_days * 86400
            ∧ is_automated t.tagList = true)
    ∧ (s.snapshotType ≠ "manual"
        → s ∉ BackupManager.retention_marked catalog db_instance_id
            retention_days now)
    ∧ (is_automated s.tagList = false
        → s ∉ BackupManager.retention_marked catalog db_instance_id
            retention_days now) := by
  refine ⟨rfl, ?_, ?_, ?_⟩
  · simp only [BackupManager.retention_marked, describe_db_snapshots,
      BackupManager.retention_cutoff, List.mem_map, List.mem_filter,
      Bool.and_eq_true, beq_iff_eq, decide_eq_true_eq]
    constructor
    · rintro ⟨t, ⟨⟨ht, hinst, htype⟩, htime, hmark⟩, hid⟩
      exact ⟨t, ht, hid, hinst, htype, htime, hmark⟩
    · rintro ⟨t, ht, hid, hinst, htype, htime, hmark⟩
      exact ⟨t, ⟨⟨ht, hinst, htype⟩, htime, hmark⟩, hid⟩
  · intro hnm hmem
    simp only [BackupManager.retention_marked, describe_db_snapshots,
      List.mem_filter, Bool.and_eq_true, beq_iff_eq] at hmem
    exact hnm hmem.1.2.2
  · intro hfa hmem
    simp only [BackupManager.retention_marked, describe_db_snapshots,
      List.mem_filter, Bool.and_eq_true, beq_iff_eq] at hmem
    rw [hmem.2.2] at hfa
    cases hfa

/-- Concrete run of the C1 safety direction: an aged automated snapshot and
an aged unmarked manual snapshot are both left out of the deletion set. -/
theorem c1_deleted_iff_old_marked_manual_witness :
    agedAutomatedSnap ∉ BackupManager.retention_marked
        [agedAutomatedSnap, agedUnmarkedManualSnap] "db" 7 1000000
    ∧ agedUnmarkedManualSnap ∉ BackupManager.retention_marked
        [agedAutomatedSnap, agedUnmarkedManualSnap] "db" 7 1000000 :=
  ⟨(c1_deleted_iff_old_marked_manual
      [agedAutomatedSnap, agedUnmarkedManualSnap] "db" 7 1000000 "x"
      agedAutomatedSnap).2.2.1 (by decide),
   (c1_deleted_iff_old_marked_manual
      [agedAutomatedSnap, agedUnmarkedManualSnap] "db" 7 1000000 "x"
      agedUnmarkedManualSnap).2.2.2 (by decide)⟩

/-- Claim C5: a snapshot created exactly at the retention cutoff is not
marked for deletion, a snapshot created exactly at the 48-hour freshness
cutoff does not count as recent, and an export object modified exactly at
the 7-day freshness cutoff does not count as recent (all three windows use
strict inequality). -/
theorem c5_exact_cutoff_boundary_excluded (catalog snaps : List SnapshotRecord)
    (objs : List S3Object) (db_instance_id : String) (retention_days now : Int)
    (s : SnapshotRecord) (o : S3Object) :
    (s.snapshotCreateTime = now - retention_days * 86400
      → s ∉ BackupManager.retention_marked catalog db_instance_id
          retention_days now)
    ∧ (s.snapshotCreateTime = now - 48 * 3600
      → s ∉ BackupVerifier.recent_snapshots snaps now)
    ∧ (o.lastModified = now - 7 * 86400
      → o ∉ BackupVerifier.recent_exports objs now) := by
  refine ⟨?_, ?_, ?_⟩
  · intro heq hmem
    simp only [BackupManager.retention_marked, describe_db_snapshots,
      BackupManager.retention_cutoff, List.mem_filter, Bool.and_eq_true,
      decide_eq_true_eq] at hmem
    obtain ⟨-, htime, -⟩ := hmem
    omega
  · intro heq hmem
    simp only [BackupVerifier.recent_snapshots, List.mem_filter,
      decide_eq_true_eq] at hmem
    omega
  · intro heq hmem
    simp only [BackupVerifier.recent_exports, List.mem_filter,
      decide_eq_true_eq] at hmem
    omega

/-- Concrete run of C5: records dated exactly at each cutoff boundary of
reference time 1000000 are excluded from all three selections. -/
theorem c5_exact_cutoff_boundary_excluded_witness :
    boundaryRetentionSnap ∉ BackupManager.retention_marked
        [boundaryRetentionSnap] "db" 7 1000000
    ∧ boundaryFreshSnap ∉ BackupVerifier.recent_snapshots
        [boundaryFreshSnap] 1000000
    ∧ boundaryExportObj ∉ BackupVerifier.recent_exports
        [boundaryExportObj] 1000000 :=
  ⟨(c5_exact_cutoff_boundary_excluded [boundaryRetentionSnap]
      [boundaryFreshSnap] [boundaryExportObj] "db" 7 1000000
      boundaryRetentionSnap boundaryExportObj).1 (by decide),
   (c5_exact_cutoff_boundary_excluded [boundaryRetentionSnap]
      [boundaryFreshSnap] [boundaryExportObj] "db" 7 1000000
      boundaryFreshSnap boundaryExportObj).2.1 (by decide),
   (c5_exact_cutoff_boundary_excluded [boundaryRetentionSnap]
      [boundaryFreshSnap] [boundaryExportObj] "db" 7 1000000
      boundaryRetentionSnap boundaryExportObj).2.2 (by decide)⟩

/-- Claim C6: with the store listing succeeding, the export-freshness
sub-verdict is WARN when no object lies under the exports/ prefix, WARN when
objects lie under the prefix but none was modified inside the 7-day window,
and PASS when at least one object under the prefix was modified inside the
window. -/
theorem c6_export_freshness_verdicts (bucket : List S3Object) (now : Int) :
    ((∀ o ∈ bucket, ¬ BackupVerifier.starts_with o.key "exports/" = true)
      → (BackupVerifier.verify_s3_backups (Except.ok bucket) now).status
          = "WARN")
    ∧ ((∃ o ∈ bucket, BackupVerifier.starts_with o.key "exports/" = true)
        ∧ (∀ o ∈ bucket, BackupVerifier.starts_with o.key "exports/" = true
            → o.lastModified ≤ now - 7 * 86400)
      → (BackupVerifier.verify_s3_backups (Except.ok bucket) now).status
          = "WARN")
    ∧ ((∃ o ∈ bucket, BackupVerifier.starts_with o.key "exports/" = true
          ∧ o.lastModified > now - 7 * 86400)
      → (BackupVerifier.verify_s3_backups (Except.ok bucket) now).status
          = "PASS") := by
  refine ⟨?_, ?_, ?_⟩
  · intro hnone
    have hnil : BackupVerifier.list_objects_v2 bucket "exports/" = [] := by
      simp only [BackupVerifier.list_objects_v2, List.filter_eq_nil_iff]
      exact hnone
    simp [BackupVerifier.verify_s3_backups, hnil]
  · rintro ⟨⟨o, ho, hpfx⟩, hall⟩
    have hmem : o ∈ BackupVerifier.list_objects_v2 bucket "exports/" := by
      simp only [BackupVerifier.list_objects_v2, List.mem_filter]
      exact ⟨ho, hpfx⟩
    have hne : (BackupVerifier.list_objects_v2 bucket "exports/").isEmpty
        = false := by
      rcases hk : BackupVerifier.list_objects_v2 bucket "exports/" with - | ⟨a, l⟩
      · rw [hk] at hmem; cases hmem
      · rfl
    have hrec : BackupVerifier.recent_exports
        (BackupVerifier.list_objects_v2 bucket "exports/") now = [] := by
      simp only [BackupVerifier.recent_exports, List.filter_eq_nil_iff]
      intro x hx
      simp only [BackupVerifier.list_objects_v2, List.mem_filter] at hx
      have := hall x hx.1 hx.2
      simp only [decide_eq_true_eq]
      omega
    simp [BackupVerifier.verify_s3_backups, hne, hrec]
  · rintro ⟨o, ho, hpfx, hfresh⟩
    have hmem : o ∈ BackupVerifier.list_objects_v2 bucket "exports/" := by
      simp only [BackupVerifier.list_objects_v2, List.mem_filter]
      exact ⟨ho, hpfx⟩
    have hne : (BackupVerifier.list_objects_v2 bucket "exports/").isEmpty
        = false := by
      rcases hk : BackupVerifier.list_objects_v2 bucket "exports/" with - | ⟨a, l⟩
      · rw [hk] at hmem; cases hmem
      · rfl
    have hrmem : o ∈ BackupVerifier.recent_exports
        (BackupVerifier.list_objects_v2 bucket "exports/") now := by
      simp only [BackupVerifier.recent_exports, List.mem_filter,
        decide_eq_true_eq]
      exact ⟨hmem, hfresh⟩
    have hpos : 0 < (BackupVerifier.recent_exports
        (BackupVerifier.list_objects_v2 bucket "exports/") now).length :=
      List.length_pos.mpr (List.ne_nil_of_mem hrmem)
    simp [BackupVerifier.verify_s3_backups, hne, hpos]

/-- Concrete runs of C6: an empty bucket warns, a bucket with only a stale
export warns, and a bucket with a fresh export passes. -/
theorem c6_export_freshness_verdicts_witness :
    (BackupVerifier.verify_s3_backups (Except.ok []) 1000000).status = "WARN"
    ∧ (BackupVerifier.verify_s3_backups (Except.ok [staleExportObj])
        1000000).status = "WARN"
    ∧ (BackupVerifier.verify_s3_backups (Except.ok [freshExportObj])
        1000000).status = "PASS" :=
  ⟨(c6_export_freshness_verdicts [] 1000000).1 (by decide),
   (c6_export_freshness_verdicts [staleExportObj] 1000000).2.1 (by decide),
   (c6_export_freshness_verdicts [freshExportObj] 1000000).2.2
     ⟨freshExportObj, by decide, by decide, by decide⟩⟩

/-- Helper: membership in the deletion-marked set, unpacked into the four
selection conditions. -/
theorem mem_retention_marked {catalog : List SnapshotRecord}
    {db_instance_id : String} {retention_days now : Int}
    {s : SnapshotRecord} :
    s ∈ BackupManager.retention_marked catalog db_instance_id retention_days
        now
    ↔ s ∈ catalog ∧ s.dbInstanceIdentifier = db_instance_id
      ∧ s.snapshotType = "manual"
      ∧ s.snapshotCreateTime < now - retention_days * 86400
      ∧ is_automated s.tagList = true := by
  simp only [BackupManager.retention_marked, describe_db_snapshots,
    BackupManager.retention_cutoff, List.mem_filter, Bool.and_eq_true,
    beq_iff_eq, decide_eq_true_eq]
  tauto

/-- Claim C7: cleanup is idempotent: whatever catalog a cleanup run leaves
behind, a second run over that catalog at the same reference time deletes
nothing - its deleted list is empty, its count is 0 and the catalog is left
unchanged. -/
theorem c7_cleanup_idempotent (catalog : List SnapshotRecord)
    (db_instance_id : String) (retention_days now : Int)
    (res₁ : CleanupResult) (cat₁ : List SnapshotRecord)
    (h : BackupManager.cleanup_old_snapshots (Except.ok catalog)
        db_instance_id retention_days now = Except.ok (res₁, cat₁)) :
    BackupManager.cleanup_old_snapshots (Except.ok cat₁) db_instance_id
        retention_days now
      = Except.ok ({ deleted_count := 0, deleted_snapshots := [] }, cat₁) := by
  simp only [BackupManager.cleanup_old_snapshots] at h
  injection h with h'
  have hcat : cat₁ = catalog.filter (fun s =>
      !(((BackupManager.retention_marked catalog db_instance_id retention_days
          now).map SnapshotRecord.dbSnapshotIdentifier).contains
        s.dbSnapshotIdentifier)) := (congrArg Prod.snd h').symm
  subst hcat
  have hm : BackupManager.retention_marked (catalog.filter (fun s =>
      !(((BackupManager.retention_marked catalog db_instance_id retention_days
          now).map SnapshotRecord.dbSnapshotIdentifier).contains
        s.dbSnapshotIdentifier))) db_instance_id retention_days now = [] := by
    rw [List.eq_nil_iff_forall_not_mem]
    intro s hs
    rw [mem_retention_marked] at hs
    obtain ⟨hsf, hinst, htype, htime, hmark⟩ := hs
    rw [List.mem_filter] at hsf
    obtain ⟨hsc, hP⟩ := hsf
    have hsm : s ∈ BackupManager.retention_marked catalog db_instance_id
        retention_days now :=
      mem_retention_marked.mpr ⟨hsc, hinst, htype, htime, hmark⟩
    have hidm : (((BackupManager.retention_marked catalog db_instance_id
        retention_days now).map SnapshotRecord.dbSnapshotIdentifier).contains
        s.dbSnapshotIdentifier) = true :=
      List.elem_iff.mpr (List.mem_map.mpr ⟨s, hsm, rfl⟩)
    rw [hidm] at hP
    cases hP
  simp only [BackupManager.cleanup_old_snapshots, hm, List.map_nil,
    List.length_nil]
  have hid : (catalog.filter (fun s =>
      !(((BackupManager.retention_marked catalog db_instance_id retention_days
          now).map SnapshotRecord.dbSnapshotIdentifier).contains
        s.dbSnapshotIdentifier))).filter (fun s =>
      !(List.contains [] s.dbSnapshotIdentifier)) = catalog.filter (fun s =>
      !(((BackupManager.retention_marked catalog db_instance_id retention_days
          now).map SnapshotRecord.dbSnapshotIdentifier).contains
        s.dbSnapshotIdentifier)) :=
    List.filter_eq_self.mpr (fun a _ => rfl)
  rw [hid]

/-- Concrete run of C7: the first cleanup over a catalog with one aged owned
snapshot and one fresh owned snapshot deletes the aged one; the second run
over the remaining catalog deletes nothing. -/
theorem c7_cleanup_idempotent_witness :
    BackupManager.cleanup_old_snapshots (Except.ok [freshOwnedSnap]) "db" 7
        1000000
      = Except.ok ({ deleted_count := 0, deleted_snapshots := [] },
          [freshOwnedSnap]) :=
  c7_cleanup_idempotent [agedOwnedSnap, freshOwnedSnap] "db" 7 1000000
    { deleted_count := 1, deleted_snapshots := ["db-manual-old"] }
    [freshOwnedSnap] (by decide)

/-- Claim C8, counterexample: a successful create_snapshot call (the waiter
sees the snapshot available immediately) returns the status field of the
creation response - the initial creating status - not the terminal available
status the claim promises. -/
theorem c8_counterexample_status_is_creating :
    (BackupManager.create_snapshot creatingResponseEnv "db" "manual" "kms"
        "2023-11-14-22-13-20").map CreateSnapshotResult.status
      = Except.ok "creating"
    ∧ ("creating" : String) ≠ "available" :=
  ⟨rfl, by decide⟩

/-- Claim C8 as amended: when the creation request succeeds, a create run
whose bounded wait (up to 120 polls at 30-unit intervals) observes an
available status returns the generated identifier together with the status
and allocated size reported by the creation response (the initial status,
not the polled terminal one); a run whose polls are exhausted without
observing available is a hard WaiterError failure, not a partial success. -/
theorem c8_amended_returns_create_response_fields
    (env : BackupManager.CreateEnv)
    (db_instance_id backup_type kms_key_id timestamp st : String) (sz : Nat)
    (hc : env.createResp = Except.ok (st, sz)) :
    ((∃ k, k < BackupManager.snapshotWaiterConfig.maxAttempts
        ∧ env.poll k = "available")
      → BackupManager.create_snapshot env db_instance_id backup_type
          kms_key_id timestamp
        = Except.ok
            { snapshot_id :=
                db_instance_id ++ "-" ++ backup_type ++ "-" ++ timestamp,
              status := st, size := sz })
    ∧ ((∀ k, k < BackupManager.snapshotWaiterConfig.maxAttempts
        → env.poll k ≠ "available")
      → BackupManager.create_snapshot env db_instance_id backup_type
          kms_key_id timestamp
        = Except.error
            "WaiterError: db_snapshot_completed polling exhausted max attempts") := by
  constructor
  · rintro ⟨k, hk, hp⟩
    have hany : (List.range
        BackupManager.snapshotWaiterConfig.maxAttempts).any
        (fun j => env.poll j == "available") = true := by
      rw [List.any_eq_true]
      exact ⟨k, List.mem_range.mpr hk, by simpa [beq_iff_eq] using hp⟩
    simp [BackupManager.create_snapshot, hc,
      BackupManager.db_snapshot_completed_wait, hany]
  · intro hall
    have hany : (List.range
        BackupManager.snapshotWaiterConfig.maxAttempts).any
        (fun j => env.poll j == "available") = false := by
      rw [List.any_eq_false]
      intro k hk
      simp only [beq_iff_eq]
      exact hall k (List.mem_range.mp hk)
    simp [BackupManager.create_snapshot, hc,
      BackupManager.db_snapshot_completed_wait, hany]

/-- Concrete runs of the amended C8: an immediately-available snapshot
returns the creation-response fields, and a never-available snapshot is a
WaiterError failure. -/
theorem c8_amended_returns_create_response_fields_witness :
    BackupManager.create_snapshot creatingResponseEnv "db" "manual" "kms" "t"
      = Except.ok { snapshot_id := "db" ++ "-" ++ "manual" ++ "-" ++ "t",
                    status := "creating", size := 20 }
    ∧ BackupManager.create_snapshot timeoutPollEnv "db" "manual" "kms" "t"
      = Except.error
          "WaiterError: db_snapshot_completed polling exhausted max attempts" :=
  ⟨(c8_amended_returns_create_response_fields creatingResponseEnv "db"
      "manual" "kms" "t" "creating" 20 rfl).1 ⟨0, by decide, rfl⟩,
   (c8_amended_returns_create_response_fields timeoutPollEnv "db" "manual"
      "kms" "t" "creating" 20 rfl).2
     (fun k hk => by show ("creating" : String) ≠ "available"; decide)⟩
